import Mathlib

set_option maxRecDepth 10000

/-!
Shallow embedding of the QuickLaunch supervisor core (src/server.js) and
proofs about its process-lifecycle, scheduler and diagnostics logic.
Each definition mirrors one JavaScript function of the source; JavaScript
strings are modelled as Lean `String`, JS `Map`s as association lists,
`Date.now()` values as `Nat` milliseconds, and `Date` parsing (an external
platform primitive) as an oracle function passed in as a parameter.
-/

namespace QuickLaunch

/-! ## JavaScript string primitives -/

/-- Model of the JavaScript `String.prototype.includes` receiver: does `sub`
occur as a contiguous substring of the character list? -/
def containsSub (sub : List Char) : List Char → Bool
  | [] => sub.isEmpty
  | c :: rest => sub.isPrefixOf (c :: rest) || containsSub sub rest

/-- JavaScript `s.includes(sub)`. -/
def jsIncludes (s sub : String) : Bool := containsSub sub.data s.data

/-- Splitter on a (non-empty) separator, fuelled to stay structurally
recursive; the semantics of JS `String.prototype.split` for a plain
separator string.  `cur` is the reversed current piece. -/
def splitListAux (sep : List Char) : Nat → List Char → List Char → List (List Char)
  | _, [], cur => [cur.reverse]
  | 0, l, cur => [cur.reverse ++ l]
  | fuel + 1, c :: rest, cur =>
    if sep.isPrefixOf (c :: rest) ∧ sep ≠ [] then
      cur.reverse :: splitListAux sep fuel ((c :: rest).drop sep.length) []
    else splitListAux sep fuel rest (c :: cur)

/-- JS `s.split(sep)` for a non-empty separator string (also the behaviour
of Lean's `String.splitOn` there). -/
def jsSplit (s sep : String) : List String :=
  (splitListAux sep.data (s.data.length + 1) s.data []).map String.mk

/-- JS `String.prototype.trim`. -/
def jsTrim (s : String) : String :=
  String.mk (((s.data.dropWhile Char.isWhitespace).reverse.dropWhile
    Char.isWhitespace).reverse)

/-- JS `s.startsWith(p)`. -/
def strStartsWith (s p : String) : Bool := p.data.isPrefixOf s.data

/-- JS `s.slice(n)` (as used with a literal count of characters). -/
def strDrop (s : String) (n : Nat) : String := String.mk (s.data.drop n)

/-- JS `s.toLowerCase()` over the ASCII range. -/
def strToLower (s : String) : String := String.mk (s.data.map Char.toLower)

/-- `Array.prototype.join(sep)`. -/
def joinWith (sep : String) : List String → String
  | [] => ""
  | [x] => x
  | x :: y :: rest => x ++ sep ++ joinWith sep (y :: rest)

/-- JavaScript string truthiness of a possibly-absent string:
`undefined`, `null` and the empty string are falsy. -/
def optTruthy (o : Option String) : Bool :=
  match o with
  | some s => !(s = "")
  | none => false

/-- JavaScript `a || d` for a possibly-absent string `a`. -/
def jsOr (o : Option String) (d : String) : String :=
  match o with
  | some s => if s = "" then d else s
  | none => d

/-! ## Process table data model (src/server.js, ProcessEntry values of
`runningProcesses`) -/

inductive Status
  | starting
  | running
  | stopped
  | failed
  | restarting
  | completed
  | external
deriving DecidableEq, Repr

/-- One entry of the `runningProcesses` map.  The bounded log ring and the
child-process handle are elided: no modelled operation reads them. -/
structure ProcInfo where
  port : Nat
  name : String
  startTime : Nat
  status : Status
  exitCode : Option Nat := none
  error : Option String := none
deriving DecidableEq, Repr

/-- Is the status one of the terminal states? -/
def isTerminal (s : Status) : Bool :=
  match s with
  | Status.stopped => true
  | Status.failed => true
  | Status.completed => true
  | _ => false

/-- Is the status one of the live states the spec forbids re-entering from a
terminal state? -/
def isLive (s : Status) : Bool :=
  match s with
  | Status.running => true
  | Status.starting => true
  | _ => false

/-! ## Auto-restart management (src/server.js lines 535-660) -/

/-- The per-app config snapshot fields read by the restart machinery. -/
structure AppConfig where
  autoRestart : Bool
  maxRestartAttempts : Nat
deriving DecidableEq, Repr

/-- `restartTracker` map values. -/
structure RestartTracker where
  attempts : Nat
  lastAttempt : Nat
  cooldownUntil : Nat
deriving DecidableEq, Repr

/-- The default tracker `{ attempts: 0, lastAttempt: 0, cooldownUntil: 0 }`
used when the map has no entry for the app. -/
def freshTracker : RestartTracker := ⟨0, 0, 0⟩

/-- `appConfig.maxRestartAttempts || 3` (JS: `0` is falsy). -/
def maxAttemptsOf (cfg : AppConfig) : Nat :=
  if cfg.maxRestartAttempts = 0 then 3 else cfg.maxRestartAttempts

/-- `shouldAutoRestart(appId, appConfig)` with the tracker-map lookup made
explicit and `Date.now()` passed as `now`. -/
def shouldAutoRestart (now : Nat) (cfg : AppConfig) (t : Option RestartTracker) : Bool :=
  if !cfg.autoRestart then false
  else
    let tracker := t.getD freshTracker
    if now < tracker.cooldownUntil then false
    else if maxAttemptsOf cfg ≤ tracker.attempts then false
    else true

/-- `recordRestartAttempt(appId, appConfig)`: increment `attempts`, stamp
`lastAttempt`, and once `attempts ≥ maxAttempts` set a 5-minute cooldown. -/
def recordRestartAttempt (now : Nat) (cfg : AppConfig) (t : Option RestartTracker) :
    RestartTracker :=
  let tracker := t.getD freshTracker
  let tracker := { tracker with attempts := tracker.attempts + 1, lastAttempt := now }
  if maxAttemptsOf cfg ≤ tracker.attempts then
    { tracker with cooldownUntil := now + 5 * 60 * 1000 }
  else tracker

/-! ## Exit classification (src/server.js lines 662-708) -/

/-- `NORMAL_EXIT_CODES = new Set([0, 3221225786, 1073807364])`. -/
def NORMAL_EXIT_CODES : List Nat := [0, 3221225786, 1073807364]

/-- `isNormalExit(exitCode)`; a `null` exit code is not in the set. -/
def isNormalExit (exitCode : Option Nat) : Bool :=
  match exitCode with
  | some c => NORMAL_EXIT_CODES.contains c
  | none => false

/-- `JSON.stringify` of a number-or-null value. -/
def jsonNumOrNull (n : Option Nat) : String :=
  match n with
  | some c => toString c
  | none => "null"

/-- `JSON.stringify({ exitCode, normalTermination })` as written by the exit
handler's `logTroubleshoot` call. -/
def exitDetailsJson (exitCode : Option Nat) (normalTermination : Bool) : String :=
  "\x7b\"exitCode\":" ++ jsonNumOrNull exitCode ++ "," ++
    (if normalTermination then "\"normalTermination\":true"
     else "\"normalTermination\":false") ++ "\x7d"

/-- One `[ISO] [LEVEL] [App] message {details}` troubleshooting-log line as
produced by `logTroubleshoot(appName, level, message, details)`. -/
def logTroubleshootLine (timestamp level appName message details : String) : String :=
  "[" ++ timestamp ++ "] [" ++ level.toUpper ++ "] [" ++ appName ++ "] " ++
    message ++ " " ++ details

/-- Result of one `handleProcessExit` invocation: the troubleshooting-log
level and details it writes, the updated table entry (if the key was
present), and whether `autoRestartApp` was invoked. -/
structure ExitOutcome where
  logLevel : String
  logDetails : String
  entry : Option ProcInfo
  restartTriggered : Bool
deriving DecidableEq, Repr

/-- `handleProcessExit(appId, exitCode, appConfig)` (lines 672-708), with the
`runningProcesses` and `restartTracker` lookups and `Date.now()` explicit. -/
def handleProcessExit (now : Nat) (exitCode : Option Nat) (cfg : AppConfig)
    (tracker : Option RestartTracker) (entry : Option ProcInfo) : ExitOutcome :=
  let isNormal := isNormalExit exitCode
  let logLevel := if isNormal then "info" else "error"
  let logDetails := exitDetailsJson exitCode isNormal
  match entry with
  | none => ⟨logLevel, logDetails, none, false⟩
  | some info =>
    let runTime := now - info.startTime
    let info := { info with status := Status.stopped, exitCode := exitCode }
    if !isNormal ∧ 5000 < runTime ∧ cfg.autoRestart then
      let info := { info with status := Status.restarting }
      if shouldAutoRestart now cfg tracker then
        ⟨logLevel, logDetails, some info, true⟩
      else
        ⟨logLevel, logDetails,
          some { info with
                  status := Status.failed,
                  error := some "Crashed (max restart attempts reached)" }, false⟩
    else if !isNormal ∧ runTime < 5000 then
      ⟨logLevel, logDetails,
        some { info with
                status := Status.failed,
                error := some ("Startup crash (exit code " ++ jsonNumOrNull exitCode ++ ")") },
        false⟩
    else
      ⟨logLevel, logDetails, some info, false⟩

/-! ## Stream observers installed by POST /api/start (lines 2414-2454) -/

/-- The stdout "successful startup" marker test of the observer at line
2420. -/
def startupMarkerLine (line : String) : Bool :=
  jsIncludes line "Local:" || jsIncludes line "ready in" || jsIncludes line "listening"

/-- The `proc.stdout.on('data')` observer's effect on the table entry (the
log-ring append is elided: it never touches `status`). -/
def stdoutObserver (line : String) (entry : Option ProcInfo) : Option ProcInfo :=
  match entry with
  | none => none
  | some info =>
    if startupMarkerLine line then some { info with status := Status.running }
    else some info

/-- The `proc.stderr.on('data')` observer: it appends to the log ring and
records `startupError`, neither of which is the table entry's status. -/
def stderrObserver (entry : Option ProcInfo) : Option ProcInfo := entry

/-- The `proc.on('error')` observer (lines 2444-2454). -/
def errorObserver (errMessage : String) (entry : Option ProcInfo) : Option ProcInfo :=
  match entry with
  | none => none
  | some info => some { info with status := Status.failed, error := some errMessage }

/-! ## Scheduler: missed-run recovery (src/server.js lines 309-358, 514-533) -/

/-- Value of JS `parseInt` on a non-empty all-digit capture. -/
def digitsToNat (cs : List Char) : Nat :=
  cs.foldl (fun n c => n * 10 + (c.toNat - 48)) 0

/-- The regex `^(\d{1,2}):(\d{2})$` of `hasScheduleTimePassedToday`, returning
the parsed (hour, minute) captures. -/
def parseHHMM (s : String) : Option (Nat × Nat) :=
  match jsSplit s ":" with
  | [h, m] =>
    if 1 ≤ h.data.length ∧ h.data.length ≤ 2 ∧ h.data.all Char.isDigit ∧
        m.data.length = 2 ∧ m.data.all Char.isDigit then
      some (digitsToNat h.data, digitsToNat m.data)
    else none
  | _ => none

/-- The regex `^(\d+)\s+(\d+)\s+` of `hasScheduleTimePassedToday`, returning
the two numeric captures in order (cron: minute then hour). -/
def parseCronPrefix (s : String) : Option (Nat × Nat) :=
  let cs := s.data
  let d1 := cs.takeWhile Char.isDigit
  let r1 := cs.dropWhile Char.isDigit
  let w1 := r1.takeWhile Char.isWhitespace
  let r2 := r1.dropWhile Char.isWhitespace
  let d2 := r2.takeWhile Char.isDigit
  let r3 := r2.dropWhile Char.isDigit
  let w2 := r3.takeWhile Char.isWhitespace
  if d1.isEmpty ∨ w1.isEmpty ∨ d2.isEmpty ∨ w2.isEmpty then none
  else some (digitsToNat d1, digitsToNat d2)

/-- The wall-clock facts `hasScheduleTimePassedToday` and
`checkMissedSchedule` read from `new Date()`. -/
structure NowInfo where
  hours : Nat
  minutes : Nat
  dateString : String
deriving DecidableEq, Repr

/-- `hasScheduleTimePassedToday(cronSchedule)` (lines 335-358). -/
def hasScheduleTimePassedToday (now : NowInfo) (cronSchedule : String) : Bool :=
  match parseHHMM cronSchedule with
  | some (scheduleHour, scheduleMinute) =>
    decide (now.hours > scheduleHour ∨
      (now.hours = scheduleHour ∧ now.minutes ≥ scheduleMinute))
  | none =>
    match parseCronPrefix cronSchedule with
    | some (scheduleMinute, scheduleHour) =>
      decide (now.hours > scheduleHour ∨
        (now.hours = scheduleHour ∧ now.minutes ≥ scheduleMinute))
    | none => false

/-- The schedule-related fields of an `AppConfig` document entry. -/
structure SchedAppConfig where
  schedule : Option String
  scheduleEnabled : Bool
  runIfMissed : Bool
deriving DecidableEq, Repr

/-- One persisted `scheduleState[appId]` record. -/
structure ScheduleState where
  lastRun : Option String := none
  lastExitCode : Option Nat := none
  wasManual : Bool := false
deriving DecidableEq, Repr

/-- `checkMissedSchedule(appId, appConfig)` (lines 310-332).  `toDateStr`
models `d => new Date(d).toDateString()`; `now.dateString` is today's
`toDateString()`. -/
def checkMissedSchedule (toDateStr : String → String) (now : NowInfo)
    (cfg : SchedAppConfig) (appState : Option ScheduleState) : Bool :=
  if !(optTruthy cfg.schedule) ∨ !cfg.scheduleEnabled then false
  else if !cfg.runIfMissed then false
  else
    let sched := cfg.schedule.getD ""
    match appState with
    | none => hasScheduleTimePassedToday now sched
    | some st =>
      if !(optTruthy st.lastRun) then hasScheduleTimePassedToday now sched
      else if !(toDateStr (st.lastRun.getD "") = now.dateString) then
        hasScheduleTimePassedToday now sched
      else false

/-- The per-app decision taken by the `initializeScheduledJobs` startup loop
(lines 515-533): `executeScheduledApp` fires immediately iff the app has a
truthy enabled schedule and `checkMissedSchedule` returns true. -/
def startupMissedRunFires (toDateStr : String → String) (now : NowInfo)
    (cfg : SchedAppConfig) (appState : Option ScheduleState) : Bool :=
  optTruthy cfg.schedule && cfg.scheduleEnabled &&
    checkMissedSchedule toDateStr now cfg appState

/-- Stated from the claim's words, for comparison with the code: the
ScheduleState has no `lastRun`, or its calendar date is not today. -/
def specLastRunAbsentOrNotToday (toDateStr : String → String) (today : String)
    (appState : Option ScheduleState) : Bool :=
  match appState with
  | none => true
  | some st =>
    match st.lastRun with
    | none => true
    | some lr => !(toDateStr lr = today)

/-! ## Health polling and the POST /api/start tail (lines 1597-1635,
2499-2629) -/

/-- `waitForHealthy`'s poll loop, abstracted over the sequence of
`checkHealth(...).healthy` outcomes observed before the `startupTimeout`
deadline; an exhausted list is the deadline expiring.  Returns
`(healthy, timedOut)`. -/
def waitForHealthy (polls : List Bool) : Bool × Bool :=
  match polls with
  | [] => (false, true)
  | p :: rest => if p then (true, false) else waitForHealthy rest

/-- The JSON envelope fields of a POST /api/start response that the claims
mention. -/
structure ApiStartResponse where
  httpStatus : Nat
  success : Bool
  status : Option String
  warning : Option String
deriving DecidableEq, Repr

/-- Result of the start handler from the 500 ms crash-window check onward:
the response sent, the table entry afterwards, and whether any kill
primitive was invoked on the child (no branch of the source does). -/
structure StartTailOutcome where
  response : ApiStartResponse
  entry : Option ProcInfo
  killedChild : Bool
deriving DecidableEq, Repr

/-- Lines 2499-2629 of POST /api/start: the crash-window check on the entry
re-read after the 500 ms wait, the died-during-poll check on the entry
re-read after `waitForHealthy`, and the healthy/timeout response split. -/
def startHandlerTail (elapsedSec : Nat) (entryAfterDelay : Option ProcInfo)
    (healthy : Bool) (entryAfterPoll : Option ProcInfo) : StartTailOutcome :=
  if entryAfterDelay.map ProcInfo.status = some Status.failed then
    ⟨⟨500, false, none, none⟩, entryAfterDelay, false⟩
  else if entryAfterPoll.map ProcInfo.status = some Status.failed ∨
      entryAfterPoll.map ProcInfo.status = some Status.stopped then
    ⟨⟨500, false, none, none⟩, entryAfterPoll, false⟩
  else if healthy then
    ⟨⟨200, true, some "running", none⟩,
      entryAfterPoll.map (fun i => { i with status := Status.running }), false⟩
  else
    ⟨⟨200, true, some "starting",
        some ("App started but health check timed out after " ++ toString elapsedSec ++
          "s. It may still be loading.")⟩,
      entryAfterPoll, false⟩

/-! ## The POST /api/start already-running gate (lines 2225-2233) -/

/-- `runningProcesses.get(id)` over an association-list model of the map. -/
def tableGet (table : List (String × ProcInfo)) (k : String) : Option ProcInfo :=
  (table.find? (fun p => p.1 == k)).map (fun p => p.2)

/-- `runningProcesses.delete(id)`. -/
def tableDelete (table : List (String × ProcInfo)) (k : String) :
    List (String × ProcInfo) :=
  table.filter (fun p => !(p.1 == k))

/-- `runningProcesses.set(id, entry)`. -/
def tableSet (table : List (String × ProcInfo)) (k : String) (v : ProcInfo) :
    List (String × ProcInfo) :=
  tableDelete table k ++ [(k, v)]

/-- Outcome of the already-running check at the top of POST /api/start. -/
structure StartGateOutcome where
  rejected : Bool
  errorMessage : Option String
  table : List (String × ProcInfo)
  killedExisting : Bool
deriving DecidableEq, Repr

/-- Lines 2225-2233: reject iff the existing entry's status is `running`;
otherwise drop the stale entry (its child process is not stopped) and let
the handler proceed to spawn under the same key. -/
def startAlreadyRunningCheck (table : List (String × ProcInfo)) (id : String) :
    StartGateOutcome :=
  match tableGet table id with
  | some info =>
    if info.status = Status.running then
      ⟨true, some "App is already running", table, false⟩
    else ⟨false, none, tableDelete table id, false⟩
  | none => ⟨false, none, table, false⟩

/-! ## Resolutions log (src/server.js lines 710-768) -/

/-- A resolution record as built in memory.  The fields mirror the JS object
keys that appear anywhere in the source; a missing key is `none`. -/
structure Resolution where
  date : Option String := none
  app : Option String := none
  issue : Option String := none
  errorType : Option String := none
  fix : Option String := none
  worked : Option Bool := none
  notes : Option String := none
  disposition : Option String := none
  explanation : Option String := none
deriving DecidableEq, Repr

/-- The per-line parser of `getResolutions` (lines 726-734).  Note the
prefixes it recognises: `Date:`, `App:`, `Issue:`, `ErrorType:`, `Fix:`,
`Worked:`, `Notes:` — and no others. -/
def parseResolutionLine (r : Resolution) (line : String) : Resolution :=
  if strStartsWith line "Date: " then { r with date := some (strDrop line 6) }
  else if strStartsWith line "App: " then { r with app := some (strDrop line 5) }
  else if strStartsWith line "Issue: " then { r with issue := some (strDrop line 7) }
  else if strStartsWith line "ErrorType: " then { r with errorType := some (strDrop line 11) }
  else if strStartsWith line "Fix: " then { r with fix := some (strDrop line 5) }
  else if strStartsWith line "Worked: " then { r with worked := some (strDrop line 8 == "true") }
  else if strStartsWith line "Notes: " then { r with notes := some (strDrop line 7) }
  else r

/-- One `---`-separated entry of the resolutions file, parsed. -/
def parseResolutionEntry (entry : String) : Resolution :=
  (jsSplit (jsTrim entry) "\n").foldl parseResolutionLine {}

/-- `getResolutions(appName)` (lines 711-747) applied to the file content. -/
def getResolutions (appName : Option String) (content : String) : List Resolution :=
  let entries := (jsSplit content "\n---\n").filter (fun e => !(jsTrim e = ""))
  (entries.map parseResolutionEntry).filter (fun r =>
    optTruthy r.date && optTruthy r.issue &&
      (!(optTruthy appName) || r.app == appName))

/-- The record text `saveResolution(resolution)` (lines 750-768) appends to
the resolutions file. -/
def formatResolution (r : Resolution) : String :=
  "Date: " ++ r.date.getD "undefined" ++ "\n" ++
  "App: " ++ jsOr r.app "General" ++ "\n" ++
  "Issue: " ++ r.issue.getD "undefined" ++ "\n" ++
  "ErrorType: " ++ jsOr r.errorType "UNKNOWN" ++ "\n" ++
  "Disposition: " ++ jsOr r.disposition "resolved" ++ "\n" ++
  "Explanation: " ++ r.explanation.getD "undefined" ++ "\n" ++
  "Notes: " ++ jsOr r.notes "" ++ "\n---\n"

/-! ## Pattern analysis (src/server.js lines 1141-1313) -/

/-- Read the capture of `[^\]]+`: the (non-empty) characters before the first
`]`, and what follows that `]`. -/
def splitBracketAux (acc : List Char) : List Char → Option (String × List Char)
  | [] => none
  | c :: rest =>
    if c = ']' then
      if acc.isEmpty then none else some (String.mk acc.reverse, rest)
    else splitBracketAux (c :: acc) rest

/-- The log-line regex `^\[([^\]]+)\] \[([^\]]+)\] \[([^\]]+)\] (.+)$`
(line 1180), returning (timestamp, level, appName, rest). -/
def parseLogLine (line : String) : Option (String × String × String × String) :=
  match line.data with
  | '[' :: r0 =>
    match splitBracketAux [] r0 with
    | some (timestamp, r1) =>
      match r1 with
      | ' ' :: '[' :: r2 =>
        match splitBracketAux [] r2 with
        | some (level, r3) =>
          match r3 with
          | ' ' :: '[' :: r4 =>
            match splitBracketAux [] r4 with
            | some (appName, r5) =>
              match r5 with
              | ' ' :: restChars =>
                if restChars.isEmpty then none
                else some (timestamp, level, appName, String.mk restChars)
              | _ => none
            | none => none
          | _ => none
        | none => none
      | _ => none
    | none => none
  | _ => none

/-- The first match of `/exited with code (\d+)/` in the character list. -/
def extractExitCode : List Char → Option Nat
  | [] => none
  | c :: rest =>
    let cs := c :: rest
    if ("exited with code ".data).isPrefixOf cs then
      let after := cs.drop ("exited with code ".data).length
      let ds := after.takeWhile Char.isDigit
      if ds.isEmpty then extractExitCode rest else some (digitsToNat ds)
    else extractExitCode rest

/-- The error-type classification of one WARN/ERROR log line
(lines 1199-1215). -/
def classifyErrorType (rest : String) : Option String :=
  if jsIncludes rest "Port" && jsIncludes rest "in use" then some "PORT_IN_USE"
  else if jsIncludes rest "not found" || jsIncludes rest "not exist" then
    some "PATH_NOT_FOUND"
  else if jsIncludes rest "module" || jsIncludes rest "MODULE" then
    some "MISSING_MODULE"
  else if jsIncludes rest "exited with code" then
    match extractExitCode rest.data with
    | some exitCode =>
      if !(NORMAL_EXIT_CODES.contains exitCode) then some "CRASH" else none
    | none => none
  else none

/-- Lookup in an association-list model of a JS `Map`. -/
def lookupAssoc (m : List (String × Int)) (k : String) : Option Int :=
  (m.find? (fun p => p.1 == k)).map (fun p => p.2)

/-- In-place value update of the association-list map. -/
def updateAssoc (m : List (String × Int)) (k : String) (v : Int) :
    List (String × Int) :=
  m.map (fun p => if p.1 == k then (k, v) else p)

/-- The `resolvedErrors` map built at lines 1158-1167: the latest
`disposition === 'resolved'` resolution date per truthy error type.
`parseTime` models `d => new Date(d).getTime()`. -/
def resolvedErrorsOf (parseTime : String → Int) (rs : List Resolution) :
    List (String × Int) :=
  rs.foldl (fun m res =>
    if res.disposition == some "resolved" && optTruthy res.errorType then
      let resDate := parseTime (res.date.getD "")
      let et := res.errorType.getD ""
      match lookupAssoc m et with
      | none => m ++ [(et, resDate)]
      | some d => if resDate > d then updateAssoc m et resDate else m
    else m) []

/-- `analysis.errorTypes[errorType] = (analysis.errorTypes[errorType] || 0) + 1`
over an insertion-ordered association list. -/
def bumpCount (m : List (String × Nat)) (k : String) : List (String × Nat) :=
  if (m.find? (fun p => p.1 == k)).isSome then
    m.map (fun p => if p.1 == k then (p.1, p.2 + 1) else p)
  else m ++ [(k, 1)]

structure PatternInfo where
  ptype : String
  count : Nat
  message : String
deriving DecidableEq, Repr

structure Recommendation where
  level : String
  message : String
  action : String
  shouldAutoTodo : Bool
deriving DecidableEq, Repr

/-- The `analysis` accumulator of `analyzeLogHistory`. -/
structure Analysis where
  totalAttempts : Nat := 0
  failures : Nat := 0
  recentFailures : Nat := 0
  errorTypes : List (String × Nat) := []
  patterns : List PatternInfo := []
  recommendation : Option Recommendation := none
  pastResolutions : List Resolution := []
deriving DecidableEq, Repr

/-- `getPatternMessage(errorType, count, appName)` (lines 1277-1290). -/
def getPatternMessage (errorType : String) (count : Nat) (appName : String) : String :=
  if errorType = "PORT_IN_USE" then
    "Port conflicts detected " ++ toString count ++ " times. Another app may be using this port, or " ++ appName ++ " isn't shutting down cleanly."
  else if errorType = "PATH_NOT_FOUND" then
    "Path errors detected " ++ toString count ++ " times. The project may have moved or the path is misconfigured."
  else if errorType = "MISSING_MODULE" then
    "Module errors detected " ++ toString count ++ " times. Dependencies may need reinstalling."
  else if errorType = "CRASH" then
    "App crashed " ++ toString count ++ " times. Check for code errors or resource issues."
  else errorType ++ " occurred " ++ toString count ++ " times."

/-- `getRecommendedAction(errorType, level)` (lines 1292-1313). -/
def getRecommendedAction (errorType level : String) : String :=
  if errorType = "PORT_IN_USE" then
    if level = "warning" then "Try changing the port in app settings, or check what process is using this port."
    else if level = "critical" then "Change the port permanently to avoid conflicts. Current port may be used by another service."
    else "Investigate the recurring issue."
  else if errorType = "PATH_NOT_FOUND" then
    if level = "warning" then "Verify the project path exists and is accessible."
    else if level = "critical" then "Update the project path in app configuration - it appears to be permanently incorrect."
    else "Investigate the recurring issue."
  else if errorType = "MISSING_MODULE" then
    if level = "warning" then "Run \"npm install\" to restore dependencies."
    else if level = "critical" then "Dependencies are persistently missing. Check package.json and node_modules integrity."
    else "Investigate the recurring issue."
  else if errorType = "CRASH" then
    if level = "warning" then "Check recent code changes or resource availability."
    else if level = "critical" then "Investigate crash cause - may be a code bug, memory issue, or configuration problem."
    else "Investigate the recurring issue."
  else "Investigate the recurring issue."

/-- The per-log-line step of `analyzeLogHistory`'s loop (lines 1178-1234). -/
def analyzeStep (parseTime : String → Int) (appName : String) (sevenDaysAgo : Int)
    (resolvedErrors : List (String × Int)) (a : Analysis) (line : String) : Analysis :=
  match parseLogLine line with
  | none => a
  | some (timestamp, level, logAppName, rest) =>
    if !(logAppName = appName) then a
    else
      let logTime := parseTime timestamp
      let a :=
        if jsIncludes rest "Starting app" then
          { a with totalAttempts := a.totalAttempts + 1 }
        else a
      if (level = "ERROR" ∨ level = "WARN") ∧
          !(jsIncludes rest "\"normalTermination\":true") then
        let errorType := classifyErrorType rest
        let resolutionDate :=
          match errorType with
          | some et => lookupAssoc resolvedErrors et
          | none => none
        let wasResolved :=
          match resolutionDate with
          | some d => if d = 0 then false else decide (logTime < d)
          | none => false
        if !wasResolved then
          let a := { a with failures := a.failures + 1 }
          let a :=
            if sevenDaysAgo < logTime then
              { a with recentFailures := a.recentFailures + 1 }
            else a
          match errorType with
          | some et => { a with errorTypes := bumpCount a.errorTypes et }
          | none => a
        else a
      else a

/-- Insert an entry after every entry of at-least-equal count, keeping the
list sorted by descending count. -/
def insertByCountDesc (p : String × Nat) : List (String × Nat) → List (String × Nat)
  | [] => [p]
  | q :: rest => if q.2 ≥ p.2 then q :: insertByCountDesc p rest else p :: q :: rest

/-- The stable descending-by-count sort
`Object.entries(analysis.errorTypes).sort((a, b) => b[1] - a[1])` (a stable
insertion sort: entries of equal count keep their insertion order). -/
def sortedErrorTypes (m : List (String × Nat)) : List (String × Nat) :=
  m.foldl (fun acc p => insertByCountDesc p acc) []

/-- `analyzeLogHistory(appId, appName)` (lines 1142-1275).  The two files are
passed as optional contents (`none` models a missing file); `parseTime`
models `Date` parsing and `nowMs` models `Date.now()`. -/
def analyzeLogHistory (parseTime : String → Int) (nowMs : Int) (appName : String)
    (resolutionsContent : Option String) (logContent : Option String) : Analysis :=
  let pastResolutions :=
    match resolutionsContent with
    | none => []
    | some c => getResolutions (some appName) c
  let a : Analysis := { pastResolutions := pastResolutions }
  let resolvedErrors := resolvedErrorsOf parseTime pastResolutions
  match logContent with
  | none => a
  | some lc =>
    let lines := (jsSplit lc "\n").filter (fun l => !(jsTrim l = ""))
    let sevenDaysAgo := nowMs - 7 * 24 * 60 * 60 * 1000
    let a := lines.foldl (analyzeStep parseTime appName sevenDaysAgo resolvedErrors) a
    match (sortedErrorTypes a.errorTypes).head? with
    | none => a
    | some (errorType, count) =>
      let a :=
        if count ≥ 3 then
          { a with patterns := a.patterns ++
              [⟨errorType, count, getPatternMessage errorType count appName⟩] }
        else a
      let criticalRec : Recommendation :=
        ⟨"critical",
          appName ++ " has failed " ++ toString a.recentFailures ++
            " times in the last 7 days. This needs a permanent fix.",
          getRecommendedAction errorType "critical", true⟩
      let warningRec : Recommendation :=
        ⟨"warning",
          appName ++ " has failed " ++ toString a.recentFailures ++
            " times recently. Consider addressing the root cause.",
          getRecommendedAction errorType "warning", false⟩
      if a.recentFailures ≥ 6 then { a with recommendation := some criticalRec }
      else if a.recentFailures ≥ 3 then { a with recommendation := some warningRec }
      else a

/-! ## Auto-TODO synthesis (src/server.js lines 1316-1369) -/

def autoSectionHeader : String := "## Auto-Detected Issues (from troubleshooting log)"

def supportCodesHeader : String := "## Support Codes Reference"

/-- The literal guard text `[${today}] ${appName}`. -/
def todayMarker (today appName : String) : String :=
  "[" ++ today ++ "] " ++ appName

/-- JS `s || d` for a plain string. -/
def strOr (s d : String) : String := if s = "" then d else s

/-- Everything of the `todoEntry` template after `\n### [today] appName`. -/
def buildTodoEntryRest (analysis : Analysis) : String :=
  let dominant := (sortedErrorTypes analysis.errorTypes).head?
  let dominantName := match dominant with | some p => strOr p.1 "failures" | none => "failures"
  let primaryName := match dominant with | some p => p.1 | none => "undefined"
  let primaryCount := match dominant with | some p => toString p.2 | none => "undefined"
  let action := match analysis.recommendation with | some r => r.action | none => "undefined"
  let patternMsg :=
    match analysis.patterns.head? with
    | some p => strOr p.message "Multiple failures detected"
    | none => "Multiple failures detected"
  " - Recurring " ++ dominantName ++ " (Auto-detected)\n" ++
  "- Failed " ++ toString analysis.recentFailures ++ " times in the last 7 days\n" ++
  "- Primary issue: " ++ primaryName ++ " (" ++ primaryCount ++ " occurrences)\n" ++
  "- **Suggested fix:** " ++ action ++ "\n" ++
  "- Pattern: " ++ patternMsg ++ "\n\n"

/-- The full `todoEntry` template string (lines 1323-1330). -/
def buildTodoEntry (today appName : String) (analysis : Analysis) : String :=
  "\n### " ++ todayMarker today appName ++ buildTodoEntryRest analysis

/-- First index of `sub` in the scanned characters, or `none`:
JS `indexOf` with a found/not-found result instead of `-1`. -/
def idxOfSubAux (sub : List Char) : List Char → Nat → Option Nat
  | [], i => if sub.isEmpty then some i else none
  | c :: rest, i =>
    if sub.isPrefixOf (c :: rest) then some i else idxOfSubAux sub rest (i + 1)

/-- JS `s.indexOf(sub)` as an `Option Nat`. -/
def idxOfSub (s sub : String) : Option Nat := idxOfSubAux sub.data s.data 0

/-- `appendAutoTodo(appName, analysis)` (lines 1316-1369) as a function from
the current TODO.md content (absent file ≡ `''`) to the new content; `today`
is `new Date().toISOString().split('T')[0]`. -/
def appendAutoTodo (today appName : String) (analysis : Analysis)
    (todoContent : String) : String :=
  let autoTodoWanted :=
    match analysis.recommendation with
    | some r => r.shouldAutoTodo
    | none => false
  if !autoTodoWanted then todoContent
  else
    let todoEntry := buildTodoEntry today appName analysis
    if jsIncludes todoContent (todayMarker today appName) then todoContent
    else if !(jsIncludes todoContent autoSectionHeader) then
      match idxOfSub todoContent supportCodesHeader with
      | some supportCodesIndex =>
        String.mk (todoContent.data.take supportCodesIndex) ++
          autoSectionHeader ++ "\n" ++ todoEntry ++
          String.mk (todoContent.data.drop supportCodesIndex)
      | none => todoContent ++ "\n" ++ autoSectionHeader ++ "\n" ++ todoEntry
    else
      let sectionIdx := (idxOfSub todoContent autoSectionHeader).getD 0
      let insertPoint := sectionIdx + autoSectionHeader.data.length
      String.mk (todoContent.data.take insertPoint) ++ "\n" ++ todoEntry ++
        String.mk (todoContent.data.drop insertPoint)

/-! ## TODO deletion and POST /api/resolutions (lines 770-801, 2134-2185) -/

/-- The regex `^[\s]*-\s*\[\s*\]` of `deleteTodoFromFile`: an unchecked
checkbox line. -/
def isUncheckedTodoLine (line : String) : Bool :=
  let cs := line.data.dropWhile Char.isWhitespace
  match cs with
  | '-' :: r1 =>
    match r1.dropWhile Char.isWhitespace with
    | '[' :: r2 =>
      match r2.dropWhile Char.isWhitespace with
      | ']' :: _ => true
      | _ => false
    | _ => false
  | _ => false

/-- The filter predicate of `deleteTodoFromFile` (line 784). -/
def todoLineMatches (todoText line : String) : Bool :=
  isUncheckedTodoLine line && jsIncludes line todoText

/-- The surviving lines after `deleteTodoFromFile`'s filter. -/
def deleteTodoNewLines (todoText : String) (lines : List String) : List String :=
  lines.filter (fun line => !(todoLineMatches todoText line))

/-- `deleteTodoFromFile(todoText)` (lines 771-801): `(returned flag, file
content afterwards)`; `none` content models a missing TODO.md. -/
def deleteTodoFromFile (todoText : String) (content : Option String) :
    Bool × Option String :=
  match content with
  | none => (false, none)
  | some c =>
    let lines := jsSplit c "\n"
    let found := lines.any (fun line => todoLineMatches todoText line)
    if found then
      (true, some (joinWith "\n" (deleteTodoNewLines todoText lines)))
    else (false, some c)

/-- `detectedErrorType` of POST /api/resolutions (lines 2147-2161). -/
def detectErrorTypeFromIssue (errorType : Option String) (issue : String) : String :=
  if optTruthy errorType && !(errorType == some "UNKNOWN") then errorType.getD ""
  else
    let issueLower := strToLower issue
    if jsIncludes issueLower "port" || jsIncludes issueLower "address in use" ||
        jsIncludes issueLower "eaddrinuse" then "PORT_IN_USE"
    else if jsIncludes issueLower "not found" || jsIncludes issueLower "path" ||
        jsIncludes issueLower "enoent" then "PATH_NOT_FOUND"
    else if jsIncludes issueLower "module" || jsIncludes issueLower "cannot find" ||
        jsIncludes issueLower "node_modules" then "MISSING_MODULE"
    else if jsIncludes issueLower "crash" || jsIncludes issueLower "exited" ||
        jsIncludes issueLower "failed" then "CRASH"
    else "UNKNOWN"

/-- The request body of POST /api/resolutions. -/
structure ResolutionRequest where
  app : Option String := none
  issue : Option String := none
  errorType : Option String := none
  disposition : Option String := none
  explanation : Option String := none
  notes : Option String := none
deriving DecidableEq, Repr

/-- POST /api/resolutions outcome: status/error of the response, the
resolutions-file content afterwards, and the TODO.md content and deletion
flag afterwards. -/
structure PostResolutionsOutcome where
  httpStatus : Nat
  error : Option String
  resolutionsContent : String
  todoContent : Option String
  todoDeleted : Bool
deriving DecidableEq, Repr

/-- The POST /api/resolutions handler (lines 2135-2185) over explicit file
contents; `nowIso` models `new Date().toISOString()`. -/
def postResolutions (nowIso : String) (req : ResolutionRequest)
    (resolutionsContent : String) (todoContent : Option String) :
    PostResolutionsOutcome :=
  if !(optTruthy req.issue) ∨ !(optTruthy req.explanation) then
    ⟨400, some "Missing required fields: issue, explanation",
      resolutionsContent, todoContent, false⟩
  else if !(req.disposition == some "resolved" || req.disposition == some "cancelled") then
    ⟨400, some "Disposition must be \"resolved\" or \"cancelled\"",
      resolutionsContent, todoContent, false⟩
  else
    let issue := req.issue.getD ""
    let detectedErrorType := detectErrorTypeFromIssue req.errorType issue
    let resolution : Resolution :=
      { date := some nowIso, app := some (jsOr req.app "General"),
        issue := some issue, errorType := some detectedErrorType,
        disposition := req.disposition, explanation := req.explanation,
        notes := some (jsOr req.notes "") }
    let newResolutions := resolutionsContent ++ formatResolution resolution
    let del := deleteTodoFromFile issue todoContent
    ⟨200, none, newResolutions, del.2, del.1⟩

/-! ## Helper lemmas on the string primitives -/

theorem isPrefixOf_append_self (m y : List Char) : m.isPrefixOf (m ++ y) = true := by
  induction m with
  | nil => simp [List.isPrefixOf]
  | cons c cs ih => simp [List.isPrefixOf, ih]

theorem containsSub_of_isPrefixOf (m l : List Char) (h : m.isPrefixOf l = true) :
    containsSub m l = true := by
  cases l with
  | nil =>
    cases m with
    | nil => rfl
    | cons a as => simp [List.isPrefixOf] at h
  | cons c rest => simp [containsSub, h]

theorem containsSub_append_self (m y : List Char) : containsSub m (m ++ y) = true :=
  containsSub_of_isPrefixOf m (m ++ y) (isPrefixOf_append_self m y)

theorem containsSub_append_left (m x l : List Char) (h : containsSub m l = true) :
    containsSub m (x ++ l) = true := by
  induction x with
  | nil => simpa using h
  | cons c cs ih => simp [containsSub, ih]

theorem jsIncludes_parts (pre mid post : String) :
    jsIncludes (pre ++ mid ++ post) mid = true := by
  unfold jsIncludes
  rw [String.data_append, String.data_append, List.append_assoc]
  exact containsSub_append_left _ _ _ (containsSub_append_self _ _)

/-! ## Claim C2 — normal exits stop the app, log INFO, never restart -/

/-- Claim C2: for every process exit whose exit code is in the normal-exit
set `{0, 3221225786, 1073807364}`, `handleProcessExit` sets the entry's
status to `stopped`, logs at level `info` with details containing
`"normalTermination":true`, and never triggers an auto-restart — for every
run time, `autoRestart` setting and tracker state. -/
theorem normalExit_stops_logs_info_no_restart
    (now c : Nat) (cfg : AppConfig) (tr : Option RestartTracker) (i : ProcInfo)
    (h : isNormalExit (some c) = true) :
    (handleProcessExit now (some c) cfg tr (some i)).entry.map ProcInfo.status =
        some Status.stopped ∧
    (handleProcessExit now (some c) cfg tr (some i)).logLevel = "info" ∧
    jsIncludes (handleProcessExit now (some c) cfg tr (some i)).logDetails
        "\"normalTermination\":true" = true ∧
    (handleProcessExit now (some c) cfg tr (some i)).restartTriggered = false := by
  have hd : jsIncludes (exitDetailsJson (some c) true) "\"normalTermination\":true" = true :=
    jsIncludes_parts ("\x7b\"exitCode\":" ++ jsonNumOrNull (some c) ++ ",") _ "\x7d"
  unfold handleProcessExit
  simp [h, hd]

/-- Witness for the claim-C2 theorem at exit code 3221225786 (Ctrl-C). -/
theorem normalExit_stops_logs_info_no_restart_witness :
    isNormalExit (some 3221225786) = true ∧
    (handleProcessExit 7000 (some 3221225786) ⟨true, 3⟩ none
        (some ⟨5173, "HTM_Email", 0, Status.running, none, none⟩)).entry.map
        ProcInfo.status = some Status.stopped :=
  ⟨by decide,
    (normalExit_stops_logs_info_no_restart 7000 3221225786 ⟨true, 3⟩ none
      ⟨5173, "HTM_Email", 0, Status.running, none, none⟩ (by decide)).1⟩

/-! ## Claim C3 — abnormal exit after ≥ 5 s with restart unavailable -/

/-- Counterexample to claim C3 as stated: a non-normal exit (code 1) with
run time of at least 5 seconds and auto-restart disabled — or exactly 5000 ms
with the budget exhausted — leaves the entry `stopped`, not `failed`:
neither branch of `handleProcessExit` fires. -/
theorem abnormalExit_disabledRestart_not_failed_counterexample :
    (handleProcessExit 6000 (some 1) ⟨false, 3⟩ none
        (some ⟨5173, "HTM_Email", 0, Status.running, none, none⟩)).entry.map
        ProcInfo.status = some Status.stopped ∧
    ¬((handleProcessExit 6000 (some 1) ⟨false, 3⟩ none
        (some ⟨5173, "HTM_Email", 0, Status.running, none, none⟩)).entry.map
        ProcInfo.status = some Status.failed) ∧
    (handleProcessExit 5000 (some 1) ⟨true, 3⟩ (some ⟨3, 0, 0⟩)
        (some ⟨5173, "HTM_Email", 0, Status.running, none, none⟩)).entry.map
        ProcInfo.status = some Status.stopped ∧
    ¬((handleProcessExit 5000 (some 1) ⟨true, 3⟩ (some ⟨3, 0, 0⟩)
        (some ⟨5173, "HTM_Email", 0, Status.running, none, none⟩)).entry.map
        ProcInfo.status = some Status.failed) := by
  refine ⟨by decide, by decide, by decide, by decide⟩

/-- Claim C3 as amended: for a non-normal exit with run time strictly over
5000 ms, if auto-restart is enabled but `shouldAutoRestart` denies the
restart (budget exhausted or cooldown), the entry becomes `failed`; if
auto-restart is disabled the entry is left `stopped` (not `failed`). -/
theorem abnormalExit_restart_denied_failed
    (now c : Nat) (cfg : AppConfig) (tr : Option RestartTracker) (i : ProcInfo)
    (hc : isNormalExit (some c) = false) (hrt : 5000 < now - i.startTime) :
    (cfg.autoRestart = true → shouldAutoRestart now cfg tr = false →
      (handleProcessExit now (some c) cfg tr (some i)).entry.map ProcInfo.status =
        some Status.failed) ∧
    (cfg.autoRestart = false →
      (handleProcessExit now (some c) cfg tr (some i)).entry.map ProcInfo.status =
        some Status.stopped) := by
  constructor
  · intro hauto hdeny
    unfold handleProcessExit
    simp [hc, hrt, hauto, hdeny]
  · intro hauto
    unfold handleProcessExit
    simp [hc, hrt, hauto, Nat.lt_asymm hrt]

/-- Witness for the amended claim-C3 theorem. -/
theorem abnormalExit_restart_denied_failed_witness :
    isNormalExit (some 1) = false ∧ (5000 < 6000 - 0) ∧
    (handleProcessExit 6000 (some 1) ⟨true, 3⟩ (some ⟨3, 0, 0⟩)
        (some ⟨5173, "HTM_Email", 0, Status.running, none, none⟩)).entry.map
        ProcInfo.status = some Status.failed :=
  ⟨by decide, by decide,
    (abnormalExit_restart_denied_failed 6000 1 ⟨true, 3⟩ (some ⟨3, 0, 0⟩)
      ⟨5173, "HTM_Email", 0, Status.running, none, none⟩ (by decide) (by decide)).1
      rfl (by decide)⟩

/-! ## Claim C5 — the 5-minute cooldown after the blocking attempt -/

/-- Claim C5: once `recordRestartAttempt` brings the attempts counter to
`maxRestartAttempts`, it stamps `cooldownUntil` five minutes after that
blocking attempt, and `shouldAutoRestart` answers false at every instant of
that window, so no auto-restart occurs during it. -/
theorem cooldown_blocks_restarts_for_five_minutes
    (now t : Nat) (cfg : AppConfig) (tr : Option RestartTracker)
    (hmax : maxAttemptsOf cfg ≤ (recordRestartAttempt now cfg tr).attempts) :
    (recordRestartAttempt now cfg tr).cooldownUntil = now + 5 * 60 * 1000 ∧
    (t < now + 5 * 60 * 1000 →
      shouldAutoRestart t cfg (some (recordRestartAttempt now cfg tr)) = false) := by
  have hc : maxAttemptsOf cfg ≤ (tr.getD freshTracker).attempts + 1 := by
    by_contra hcn
    unfold recordRestartAttempt at hmax
    rw [if_neg hcn] at hmax
    exact hcn hmax
  have hcd : (recordRestartAttempt now cfg tr).cooldownUntil = now + 5 * 60 * 1000 := by
    unfold recordRestartAttempt
    rw [if_pos hc]
  refine ⟨hcd, fun ht => ?_⟩
  unfold shouldAutoRestart
  by_cases ha : cfg.autoRestart
  · simp [ha, hcd, ht]
  · simp [ha]

/-- Witness for the claim-C5 theorem: the third attempt with
`maxRestartAttempts = 3` blocks until `now + 300000`. -/
theorem cooldown_blocks_restarts_for_five_minutes_witness :
    maxAttemptsOf ⟨true, 3⟩ ≤ (recordRestartAttempt 1000 ⟨true, 3⟩ (some ⟨2, 0, 0⟩)).attempts ∧
    (recordRestartAttempt 1000 ⟨true, 3⟩ (some ⟨2, 0, 0⟩)).cooldownUntil = 1000 + 5 * 60 * 1000 ∧
    shouldAutoRestart 300999 ⟨true, 3⟩
      (some (recordRestartAttempt 1000 ⟨true, 3⟩ (some ⟨2, 0, 0⟩))) = false := by
  have h := cooldown_blocks_restarts_for_five_minutes 1000 300999 ⟨true, 3⟩
    (some ⟨2, 0, 0⟩) (by decide)
  exact ⟨by decide, h.1, h.2 (by decide)⟩

/-! ## Claim C4 — terminal statuses and the stream observers -/

/-- Counterexample to claim C4 as stated: the stdout observer of
POST /api/start has no terminal-state guard, so a late `data` event whose
line contains a startup marker (here `listening`) upgrades a `failed` entry
back to `running`. -/
theorem terminal_status_final_counterexample :
    (stdoutObserver "Server listening on port 5173"
        (some ⟨5173, "HTM_Email", 0, Status.failed, some 1, none⟩)).map
        ProcInfo.status = some Status.running := by
  decide

/-- Claim C4 as amended: the `proc.on('error')` observer and
`handleProcessExit` never set any entry to `running` or `starting`, and the
stdout observer preserves the status of any entry when the line carries no
startup marker; but a stdout line containing `Local:`, `ready in` or
`listening` sets the status to `running` whatever the current status,
terminal ones included. -/
theorem terminal_status_final_amended
    (msg line : String) (i : ProcInfo) (now : Nat) (exitCode : Option Nat)
    (cfg : AppConfig) (tr : Option RestartTracker)
    (hline : startupMarkerLine line = false) :
    ((errorObserver msg (some i)).map ProcInfo.status = some Status.failed) ∧
    (∀ j, (handleProcessExit now exitCode cfg tr (some i)).entry = some j →
      isLive j.status = false) ∧
    ((stdoutObserver line (some i)).map ProcInfo.status = some i.status) ∧
    ((stdoutObserver "listening" (some i)).map ProcInfo.status = some Status.running) := by
  refine ⟨by simp [errorObserver], ?_, by simp [stdoutObserver, hline], ?_⟩
  · intro j hj
    unfold handleProcessExit at hj
    dsimp only at hj
    split at hj
    · split at hj
      · cases hj
        rfl
      · cases hj
        rfl
    · split at hj
      · cases hj
        rfl
      · cases hj
        rfl
  · have hm : startupMarkerLine "listening" = true := by decide
    simp [stdoutObserver, hm]

/-- Witness for the amended claim-C4 theorem at a marker-free stderr-style
line and a `completed` entry. -/
theorem terminal_status_final_amended_witness :
    startupMarkerLine "npm warn deprecated" = false ∧
    (stdoutObserver "npm warn deprecated"
        (some ⟨0, "HTM_Email (sync)", 0, Status.completed, some 0, none⟩)).map
        ProcInfo.status = some Status.completed :=
  ⟨by decide,
    (terminal_status_final_amended "boom" "npm warn deprecated"
      ⟨0, "HTM_Email (sync)", 0, Status.completed, some 0, none⟩ 0 none ⟨false, 3⟩ none
      (by decide)).2.2.1⟩

/-! ## Claim C6 — a health-poll timeout never escalates -/

theorem waitForHealthy_all_false (polls : List Bool) (hp : ∀ p ∈ polls, p = false) :
    waitForHealthy polls = (false, true) := by
  induction polls with
  | nil => rfl
  | cons p rest ih =>
    have hp0 : p = false := hp p (by simp)
    simp [waitForHealthy, hp0, ih (fun q hq => hp q (by simp [hq]))]

/-- Claim C6: for an interactive start whose process survives the 500 ms
crash window but whose health poll reaches the startupTimeout deadline with
every poll unanswered, the handler responds `success: true` with status
`starting` and a warning, invokes no kill on the child, and leaves the table
entry with status `starting`. -/
theorem health_timeout_keeps_starting
    (elapsedSec : Nat) (i j : ProcInfo) (polls : List Bool)
    (hi : i.status ≠ Status.failed)
    (hp : ∀ p ∈ polls, p = false)
    (hj : j.status = Status.starting) :
    (waitForHealthy polls).2 = true ∧
    (startHandlerTail elapsedSec (some i) (waitForHealthy polls).1
        (some j)).response.success = true ∧
    (startHandlerTail elapsedSec (some i) (waitForHealthy polls).1
        (some j)).response.httpStatus = 200 ∧
    (startHandlerTail elapsedSec (some i) (waitForHealthy polls).1
        (some j)).response.status = some "starting" ∧
    (startHandlerTail elapsedSec (some i) (waitForHealthy polls).1
        (some j)).response.warning.isSome = true ∧
    (startHandlerTail elapsedSec (some i) (waitForHealthy polls).1
        (some j)).killedChild = false ∧
    (startHandlerTail elapsedSec (some i) (waitForHealthy polls).1
        (some j)).entry = some j ∧
    (startHandlerTail elapsedSec (some i) (waitForHealthy polls).1
        (some j)).entry.map ProcInfo.status = some Status.starting := by
  have hw := waitForHealthy_all_false polls hp
  rw [hw]
  unfold startHandlerTail
  simp [hi, hj]

/-- Witness for the claim-C6 theorem: two refused polls, then the deadline. -/
theorem health_timeout_keeps_starting_witness :
    ((⟨5173, "HTM_Email", 0, Status.starting, none, none⟩ : ProcInfo).status ≠
        Status.failed) ∧
    (startHandlerTail 30 (some ⟨5173, "HTM_Email", 0, Status.starting, none, none⟩)
        (waitForHealthy [false, false]).1
        (some ⟨5173, "HTM_Email", 0, Status.starting, none, none⟩)).response.status =
      some "starting" :=
  ⟨by decide,
    (health_timeout_keeps_starting 30 ⟨5173, "HTM_Email", 0, Status.starting, none, none⟩
      ⟨5173, "HTM_Email", 0, Status.starting, none, none⟩ [false, false] (by decide)
      (by decide) rfl).2.2.2.1⟩

/-! ## Claim C7 — missed-run recovery on startup -/

/-- Claim C7: on supervisor startup, an app with a (non-empty) schedule,
`scheduleEnabled` and `runIfMissed` is executed immediately iff its
ScheduleState `lastRun` is absent or dated on a different calendar day than
today, and the schedule's time-of-day has already passed today.  The
hypothesis `hlr` records that a present `lastRun` is a non-empty
timestamp (the supervisor only ever writes full ISO strings). -/
theorem missed_run_fires_iff
    (toDateStr : String → String) (now : NowInfo) (cfg : SchedAppConfig)
    (st : Option ScheduleState) (s : String)
    (hs : cfg.schedule = some s) (hne : s ≠ "")
    (hen : cfg.scheduleEnabled = true) (hrm : cfg.runIfMissed = true)
    (hlr : ∀ stt lr, st = some stt → stt.lastRun = some lr → lr ≠ "") :
    startupMissedRunFires toDateStr now cfg st =
      (specLastRunAbsentOrNotToday toDateStr now.dateString st &&
        hasScheduleTimePassedToday now s) := by
  unfold startupMissedRunFires checkMissedSchedule specLastRunAbsentOrNotToday
  rw [hs]
  simp only [hen, hrm, Option.getD_some, optTruthy, hne]
  cases st with
  | none => simp
  | some stt =>
    cases hstt : stt.lastRun with
    | none => simp [hstt]
    | some lr =>
      have hlrne : lr ≠ "" := hlr stt lr rfl hstt
      by_cases hd : toDateStr lr = now.dateString
      · simp [hstt, hlrne, hd]
      · simp [hstt, hlrne, hd]

/-- Witness for the claim-C7 theorem: yesterday's 02:30 run, supervisor
started at 09:00 today — the missed run fires. -/
theorem missed_run_fires_iff_witness :
    (⟨some "02:30", true, true⟩ : SchedAppConfig).schedule = some "02:30" ∧
    startupMissedRunFires (fun _ => "Sun Jan 04 2026") ⟨9, 0, "Mon Jan 05 2026"⟩
        ⟨some "02:30", true, true⟩
        (some ⟨some "2026-01-04T02:30:00.000Z", some 0, false⟩) = true := by
  have h := missed_run_fires_iff (fun _ => "Sun Jan 04 2026") ⟨9, 0, "Mon Jan 05 2026"⟩
    ⟨some "02:30", true, true⟩ (some ⟨some "2026-01-04T02:30:00.000Z", some 0, false⟩)
    "02:30" rfl (by decide) rfl rfl
    (by intro stt lr hst hlr2; cases hst; rw [Option.some_inj] at hlr2; rw [← hlr2]; decide)
  refine ⟨rfl, ?_⟩
  rw [h]
  decide

/-! ## Claim C10 — the already-running gate of POST /api/start -/

theorem tableDelete_find?_none (t : List (String × ProcInfo)) (k : String) :
    (tableDelete t k).find? (fun p => p.1 == k) = none := by
  rw [List.find?_eq_none]
  intro x hx
  have hq := (List.mem_filter.mp hx).2
  simp only [Bool.not_eq_true'] at hq
  simp [hq]

theorem tableGet_delete_self (t : List (String × ProcInfo)) (k : String) :
    tableGet (tableDelete t k) k = none := by
  unfold tableGet
  rw [tableDelete_find?_none]
  rfl

theorem tableGet_set_self (t : List (String × ProcInfo)) (k : String) (v : ProcInfo) :
    tableGet (tableSet t k v) k = some v := by
  unfold tableGet tableSet
  rw [List.find?_append, tableDelete_find?_none]
  simp

/-- Claim C10: a POST /api/start for a key that already holds an entry is
rejected with "App is already running" iff that entry's status is exactly
`running`; for any other status the entry is deleted (no kill of its child),
and the subsequent `runningProcesses.set` installs the new entry under the
same key. -/
theorem start_gate_rejects_iff_running
    (table : List (String × ProcInfo)) (id : String) (info newEntry : ProcInfo)
    (h : tableGet table id = some info) :
    (info.status = Status.running →
      (startAlreadyRunningCheck table id).rejected = true ∧
      (startAlreadyRunningCheck table id).errorMessage = some "App is already running" ∧
      (startAlreadyRunningCheck table id).table = table) ∧
    (info.status ≠ Status.running →
      (startAlreadyRunningCheck table id).rejected = false ∧
      (startAlreadyRunningCheck table id).killedExisting = false ∧
      tableGet (startAlreadyRunningCheck table id).table id = none ∧
      tableGet (tableSet (startAlreadyRunningCheck table id).table id newEntry) id =
        some newEntry) := by
  constructor
  · intro hr
    have hout : startAlreadyRunningCheck table id =
        ⟨true, some "App is already running", table, false⟩ := by
      unfold startAlreadyRunningCheck
      rw [h]
      dsimp only
      rw [if_pos hr]
    rw [hout]
    exact ⟨rfl, rfl, rfl⟩
  · intro hr
    have hout : startAlreadyRunningCheck table id =
        ⟨false, none, tableDelete table id, false⟩ := by
      unfold startAlreadyRunningCheck
      rw [h]
      dsimp only
      rw [if_neg hr]
    rw [hout]
    exact ⟨rfl, rfl, tableGet_delete_self table id,
      tableGet_set_self (tableDelete table id) id newEntry⟩

/-- Witness for the claim-C10 theorem: a `restarting` entry is displaced. -/
theorem start_gate_rejects_iff_running_witness :
    tableGet [("htm-email", ⟨5173, "HTM_Email", 0, Status.restarting, none, none⟩)]
        "htm-email" = some ⟨5173, "HTM_Email", 0, Status.restarting, none, none⟩ ∧
    (startAlreadyRunningCheck
        [("htm-email", ⟨5173, "HTM_Email", 0, Status.restarting, none, none⟩)]
        "htm-email").rejected = false :=
  ⟨by decide,
    ((start_gate_rejects_iff_running
      [("htm-email", ⟨5173, "HTM_Email", 0, Status.restarting, none, none⟩)] "htm-email"
      ⟨5173, "HTM_Email", 0, Status.restarting, none, none⟩
      ⟨5173, "HTM_Email", 99, Status.starting, none, none⟩ (by decide)).2
      (by decide)).1⟩

/-! ## Claim C1 — the resolution discount rule -/

theorem parseResolutionLine_disposition (r : Resolution) (line : String) :
    (parseResolutionLine r line).disposition = r.disposition := by
  unfold parseResolutionLine
  repeat' split
  all_goals rfl

theorem parseResolutionEntry_disposition (e : String) :
    (parseResolutionEntry e).disposition = none := by
  have gen : ∀ (ls : List String) (r : Resolution),
      (ls.foldl parseResolutionLine r).disposition = r.disposition := by
    intro ls
    induction ls with
    | nil => intro r; rfl
    | cons l rest ih =>
      intro r
      rw [List.foldl_cons, ih, parseResolutionLine_disposition]
  unfold parseResolutionEntry
  exact gen _ {}

/-- Claim C1 is violated by the code: `getResolutions` parses the legacy
`Fix:`/`Worked:` fields but never the `Disposition:` line that
`saveResolution` writes, so every parsed resolution lacks a disposition
(first conjunct, for every file content), the `resolvedErrors` map of
`analyzeLogHistory` stays empty, and the discount rule never applies.  The
remaining conjuncts evaluate the failing input: one ERROR log entry of type
CRASH at time 100 and a later `Disposition: resolved` resolution for CRASH
at time 200, produced by `saveResolution` itself.  The claim requires the
entry to be discounted, yet it is counted in `failures`, `recentFailures`
and `errorTypes`. -/
theorem discount_rule_never_applies :
    (∀ (a : Option String) (c : String),
      (getResolutions a c).all (fun r => r.disposition == none) = true) ∧
    (analyzeLogHistory (fun s => if s = "2026-01-02T10:00:00.000Z" then 200 else 100)
        300 "MyApp"
        (some (formatResolution
          { date := some "2026-01-02T10:00:00.000Z", app := some "MyApp",
            issue := some "crash loop", errorType := some "CRASH",
            disposition := some "resolved", explanation := some "fixed",
            notes := some "" }))
        (some ("[2026-01-01T10:00:00.000Z] [ERROR] [MyApp] Process exited with code 1 " ++
          "\x7b\"exitCode\":1,\"normalTermination\":false\x7d"))).failures = 1 ∧
    (analyzeLogHistory (fun s => if s = "2026-01-02T10:00:00.000Z" then 200 else 100)
        300 "MyApp"
        (some (formatResolution
          { date := some "2026-01-02T10:00:00.000Z", app := some "MyApp",
            issue := some "crash loop", errorType := some "CRASH",
            disposition := some "resolved", explanation := some "fixed",
            notes := some "" }))
        (some ("[2026-01-01T10:00:00.000Z] [ERROR] [MyApp] Process exited with code 1 " ++
          "\x7b\"exitCode\":1,\"normalTermination\":false\x7d"))).recentFailures = 1 ∧
    (analyzeLogHistory (fun s => if s = "2026-01-02T10:00:00.000Z" then 200 else 100)
        300 "MyApp"
        (some (formatResolution
          { date := some "2026-01-02T10:00:00.000Z", app := some "MyApp",
            issue := some "crash loop", errorType := some "CRASH",
            disposition := some "resolved", explanation := some "fixed",
            notes := some "" }))
        (some ("[2026-01-01T10:00:00.000Z] [ERROR] [MyApp] Process exited with code 1 " ++
          "\x7b\"exitCode\":1,\"normalTermination\":false\x7d"))).errorTypes =
      [("CRASH", 1)] ∧
    ((analyzeLogHistory (fun s => if s = "2026-01-02T10:00:00.000Z" then 200 else 100)
        300 "MyApp"
        (some (formatResolution
          { date := some "2026-01-02T10:00:00.000Z", app := some "MyApp",
            issue := some "crash loop", errorType := some "CRASH",
            disposition := some "resolved", explanation := some "fixed",
            notes := some "" }))
        (some ("[2026-01-01T10:00:00.000Z] [ERROR] [MyApp] Process exited with code 1 " ++
          "\x7b\"exitCode\":1,\"normalTermination\":false\x7d"))).pastResolutions.map
        Resolution.disposition) = [none] := by
  refine ⟨fun a c => ?_, by decide, by decide, by decide, by decide⟩
  rw [List.all_eq_true]
  intro r hr
  simp only [getResolutions, List.mem_filter, List.mem_map] at hr
  obtain ⟨⟨e, he, heq⟩, hpred⟩ := hr
  rw [← heq]
  simp [parseResolutionEntry_disposition e]

/-! ## Claim C8 — auto-TODO idempotence -/

theorem data_mk (l : List Char) : (String.mk l).data = l := rfl

theorem containsSub_todoEntry (today appName : String) (analysis : Analysis)
    (y : List Char) :
    containsSub (todayMarker today appName).data
      ((buildTodoEntry today appName analysis).data ++ y) = true := by
  unfold buildTodoEntry
  rw [String.data_append, String.data_append, List.append_assoc, List.append_assoc]
  exact containsSub_append_left _ _ _ (containsSub_append_self _ _)

theorem containsSub_todoEntry_nil (today appName : String) (analysis : Analysis) :
    containsSub (todayMarker today appName).data
      (buildTodoEntry today appName analysis).data = true := by
  have h := containsSub_todoEntry today appName analysis []
  rwa [List.append_nil] at h

theorem containsSub_nil (l : List Char) : containsSub [] l = true := by
  cases l <;> simp [containsSub, List.isPrefixOf]

theorem isPrefixOf_append_ext (m l y : List Char) (h : m.isPrefixOf l = true) :
    m.isPrefixOf (l ++ y) = true := by
  induction m generalizing l with
  | nil => simp [List.isPrefixOf]
  | cons a as ih =>
    cases l with
    | nil => simp [List.isPrefixOf] at h
    | cons b bs =>
      simp only [List.cons_append, List.isPrefixOf, Bool.and_eq_true, beq_iff_eq] at h ⊢
      exact ⟨h.1, ih bs h.2⟩

theorem containsSub_append_ext (m l y : List Char) (h : containsSub m l = true) :
    containsSub m (l ++ y) = true := by
  induction l with
  | nil =>
    have hm : m = [] := by
      cases m with
      | nil => rfl
      | cons a as => simp [containsSub, List.isEmpty] at h
    subst hm
    exact containsSub_nil y
  | cons c rest ih =>
    simp only [containsSub, Bool.or_eq_true] at h
    rcases h with h | h
    · simp only [List.cons_append, containsSub, Bool.or_eq_true]
      left
      exact isPrefixOf_append_ext m (c :: rest) y h
    · simp only [List.cons_append, containsSub, Bool.or_eq_true]
      right
      exact ih h

theorem jsIncludes_append_right (s t sub : String) (h : jsIncludes t sub = true) :
    jsIncludes (s ++ t) sub = true := by
  unfold jsIncludes at h ⊢
  rw [String.data_append]
  exact containsSub_append_left _ _ _ h

theorem jsIncludes_append_left (s t sub : String) (h : jsIncludes s sub = true) :
    jsIncludes (s ++ t) sub = true := by
  unfold jsIncludes at h ⊢
  rw [String.data_append]
  exact containsSub_append_ext _ _ _ h

theorem jsIncludes_todoEntry (today appName : String) (analysis : Analysis) :
    jsIncludes (buildTodoEntry today appName analysis)
      (todayMarker today appName) = true := by
  unfold jsIncludes
  exact containsSub_todoEntry_nil today appName analysis

/-- If TODO.md already holds the `[today] appName` marker, `appendAutoTodo`
returns it unchanged. -/
theorem appendAutoTodo_of_contains (today appName : String) (analysis : Analysis)
    (c : String) (h : jsIncludes c (todayMarker today appName) = true) :
    appendAutoTodo today appName analysis c = c := by
  unfold appendAutoTodo
  cases hrec : analysis.recommendation with
  | none => simp
  | some r =>
    by_cases hw : r.shouldAutoTodo
    · simp [hw, h]
    · simp [hw]

/-- Every run of `appendAutoTodo` either leaves the content unchanged or
leaves it containing the `[today] appName` marker. -/
theorem appendAutoTodo_adds_marker (today appName : String) (analysis : Analysis)
    (d : String) :
    appendAutoTodo today appName analysis d = d ∨
    jsIncludes (appendAutoTodo today appName analysis d)
      (todayMarker today appName) = true := by
  unfold appendAutoTodo
  cases hrec : analysis.recommendation with
  | none => left; simp
  | some r =>
    by_cases hw : r.shouldAutoTodo
    · by_cases hg : jsIncludes d (todayMarker today appName) = true
      · left
        simp [hw, hg]
      · right
        rw [Bool.not_eq_true] at hg
        simp only [hw, hg, Bool.not_false, if_pos, Bool.false_eq_true, if_false]
        by_cases hs : jsIncludes d autoSectionHeader = true
        · simp only [hs, Bool.not_true, Bool.false_eq_true, if_false]
          exact jsIncludes_append_left _ _ _ (jsIncludes_append_right _ _ _
            (jsIncludes_todoEntry today appName analysis))
        · rw [Bool.not_eq_true] at hs
          simp only [hs, Bool.not_false, if_pos]
          cases hidx : idxOfSub d supportCodesHeader with
          | none =>
            exact jsIncludes_append_right _ _ _
              (jsIncludes_todoEntry today appName analysis)
          | some k =>
            exact jsIncludes_append_left _ _ _ (jsIncludes_append_right _ _ _
              (jsIncludes_todoEntry today appName analysis))
    · left
      simp [hw]

/-- Claim C8: auto-TODO synthesis is idempotent per day per app.  If TODO.md
already contains the literal `[today] appName` text, `appendAutoTodo` leaves
it unchanged; and `appendAutoTodo` is idempotent, so any number of runs on
one day writes at most one auto-detected entry for the app. -/
theorem autoTodo_idempotent_per_day (today appName : String) (analysis : Analysis)
    (c : String) (h : jsIncludes c (todayMarker today appName) = true) :
    appendAutoTodo today appName analysis c = c ∧
    ∀ d : String,
      appendAutoTodo today appName analysis (appendAutoTodo today appName analysis d) =
        appendAutoTodo today appName analysis d := by
  refine ⟨appendAutoTodo_of_contains today appName analysis c h, fun d => ?_⟩
  rcases appendAutoTodo_adds_marker today appName analysis d with he | hc
  · rw [he, he]
  · exact appendAutoTodo_of_contains today appName analysis _ hc

/-- Witness for the claim-C8 theorem on a TODO.md that already holds
today's marker for the app. -/
theorem autoTodo_idempotent_per_day_witness :
    jsIncludes "pre [2026-01-05] HTM_Email post"
        (todayMarker "2026-01-05" "HTM_Email") = true ∧
    appendAutoTodo "2026-01-05" "HTM_Email"
        { recentFailures := 7, errorTypes := [("CRASH", 7)],
          recommendation := some ⟨"critical", "m", "act", true⟩,
          patterns := [⟨"CRASH", 7, "pm"⟩] }
        "pre [2026-01-05] HTM_Email post" = "pre [2026-01-05] HTM_Email post" :=
  ⟨by decide,
    (autoTodo_idempotent_per_day "2026-01-05" "HTM_Email"
      { recentFailures := 7, errorTypes := [("CRASH", 7)],
        recommendation := some ⟨"critical", "m", "act", true⟩,
        patterns := [⟨"CRASH", 7, "pm"⟩] }
      "pre [2026-01-05] HTM_Email post" (by decide)).1⟩

/-! ## Claim C9 — POST /api/resolutions -/

/-- Counterexample to claim C9 as stated: `deleteTodoFromFile` filters out
every unchecked TODO line containing the issue string, not only the first.
With two unchecked lines containing `foo`, both are deleted — the claim
expects the TODO content `- [ ] foo again\nkeep` to survive, but only
`keep` does. -/
theorem resolutions_delete_first_only_counterexample :
    (postResolutions "2026-01-01T00:00:00.000Z"
        { issue := some "foo", explanation := some "because",
          disposition := some "resolved" }
        "" (some "- [ ] fix foo\n- [ ] foo again\nkeep")).todoContent = some "keep" ∧
    ¬((postResolutions "2026-01-01T00:00:00.000Z"
        { issue := some "foo", explanation := some "because",
          disposition := some "resolved" }
        "" (some "- [ ] fix foo\n- [ ] foo again\nkeep")).todoContent =
      some "- [ ] foo again\nkeep") := by
  refine ⟨by decide, by decide⟩

/-- Claim C9 as amended: a valid POST /api/resolutions appends exactly one
record to the resolutions log, and deletes from TODO.md **every** unchecked
`- [ ]` line whose text contains the issue (not only the first), keeping all
other lines; `todoDeleted` reports whether any line matched. -/
theorem resolutions_append_and_delete_all
    (nowIso s e rc c : String) (req : ResolutionRequest)
    (hissue : req.issue = some s) (hs : s ≠ "")
    (hexp : req.explanation = some e) (he : e ≠ "")
    (hdisp : req.disposition = some "resolved" ∨ req.disposition = some "cancelled") :
    (postResolutions nowIso req rc (some c)).error = none ∧
    (∃ rec : Resolution,
      (postResolutions nowIso req rc (some c)).resolutionsContent =
        rc ++ formatResolution rec ∧
      rec.issue = some s ∧ rec.disposition = req.disposition ∧
      rec.explanation = req.explanation) ∧
    (postResolutions nowIso req rc (some c)).todoDeleted =
      (jsSplit c "\n").any (fun l => todoLineMatches s l) ∧
    ((postResolutions nowIso req rc (some c)).todoDeleted = true →
      ∃ kept : List String,
        (postResolutions nowIso req rc (some c)).todoContent =
          some (joinWith "\n" kept) ∧
        kept.Sublist (jsSplit c "\n") ∧
        (∀ l ∈ kept, todoLineMatches s l = false) ∧
        (∀ l ∈ jsSplit c "\n", todoLineMatches s l = false → l ∈ kept)) ∧
    ((postResolutions nowIso req rc (some c)).todoDeleted = false →
      (postResolutions nowIso req rc (some c)).todoContent = some c ∧
      ∀ l ∈ jsSplit c "\n", todoLineMatches s l = false) := by
  have hv1 : optTruthy req.issue = true := by
    rw [hissue]
    simp [optTruthy, hs]
  have hv2 : optTruthy req.explanation = true := by
    rw [hexp]
    simp [optTruthy, he]
  have hv3 : (req.disposition == some "resolved" ||
      req.disposition == some "cancelled") = true := by
    rcases hdisp with h | h <;> simp [h]
  have hout : postResolutions nowIso req rc (some c) =
      ⟨200, none,
        rc ++ formatResolution
          { date := some nowIso, app := some (jsOr req.app "General"),
            issue := some s,
            errorType := some (detectErrorTypeFromIssue req.errorType s),
            disposition := req.disposition, explanation := req.explanation,
            notes := some (jsOr req.notes "") },
        (deleteTodoFromFile s (some c)).2, (deleteTodoFromFile s (some c)).1⟩ := by
    unfold postResolutions
    rw [hv1, hv2, hv3]
    simp [hissue]
  rw [hout]
  by_cases hf : (jsSplit c "\n").any (fun l => todoLineMatches s l) = true
  · have hdeq : deleteTodoFromFile s (some c) =
        (true, some (joinWith "\n" (deleteTodoNewLines s (jsSplit c "\n")))) := by
      unfold deleteTodoFromFile
      simp [hf]
    rw [hdeq]
    refine ⟨rfl, ⟨_, rfl, rfl, rfl, rfl⟩, by simp [hf], fun _ => ?_, by simp⟩
    refine ⟨deleteTodoNewLines s (jsSplit c "\n"), rfl, List.filter_sublist _, ?_, ?_⟩
    · intro l hl
      unfold deleteTodoNewLines at hl
      have h2 := (List.mem_filter.mp hl).2
      simpa using h2
    · intro l hl hm
      unfold deleteTodoNewLines
      exact List.mem_filter.mpr ⟨hl, by simp [hm]⟩
  · rw [Bool.not_eq_true] at hf
    have hdeq : deleteTodoFromFile s (some c) = (false, some c) := by
      unfold deleteTodoFromFile
      simp [hf]
    rw [hdeq]
    refine ⟨rfl, ⟨_, rfl, rfl, rfl, rfl⟩, by simp [hf], by simp, fun _ => ⟨rfl, ?_⟩⟩
    intro l hl
    have hall := List.any_eq_false.mp hf
    simpa using hall l hl

/-- Witness for the amended claim-C9 theorem. -/
theorem resolutions_append_and_delete_all_witness :
    ({ issue := some "foo", explanation := some "because",
        disposition := some "cancelled" } : ResolutionRequest).issue = some "foo" ∧
    (postResolutions "2026-01-01T00:00:00.000Z"
        { issue := some "foo", explanation := some "because",
          disposition := some "cancelled" }
        "" (some "- [ ] fix foo\nkeep")).error = none :=
  ⟨rfl,
    (resolutions_append_and_delete_all "2026-01-01T00:00:00.000Z" "foo" "because" ""
      "- [ ] fix foo\nkeep"
      { issue := some "foo", explanation := some "because",
        disposition := some "cancelled" }
      rfl (by decide) rfl (by decide) (Or.inr rfl)).1⟩

end QuickLaunch
